import Mathlib

/-!
Shallow embedding of the `Unpacker` class from `src/index.js` of the
`@mattduffy/unpacker` package, together with theorems checking the
natural-language specification against it.

External collaborators (the OS `stat` primitive, the `file --mime-type`
probe, the `which` lookup, and the external binaries invoked through
`child_process.exec`) are modelled as an explicit environment record; the
class's own logic (classification, command construction, relocation,
renaming) is translated statement by statement from the source.
-/

deriving instance DecidableEq for Except

namespace Unpacker

/-- `src/index.js` line 18: `const TAR = 'application/x-tar'`. -/
def TAR : String := "application/x-tar"

/-- `src/index.js` line 19: `const ZIP = 'application/zip'`. -/
def ZIP : String := "application/zip"

/-- `src/index.js` line 20: `const GZIP = 'application/gzip'`. -/
def GZIP : String := "application/gzip"

/-- `src/index.js` line 21: `const OCTET = 'application/octet-stream'`. -/
def OCTET : String := "application/octet-stream"

/-- `src/index.js` line 22: `const DIRECTORY = 'inode/directory'`. -/
def DIRECTORY : String := "inode/directory"

/-- The `switch` of `setMimetype` (lines 149-164): the trimmed stdout of the
`file --mime-type --brief` probe is compared against the four known
constants; anything else is recorded as `OCTET`. -/
def setMimetypeSwitch (probeOutput : String) : String :=
  if probeOutput = TAR then TAR
  else if probeOutput = ZIP then ZIP
  else if probeOutput = GZIP then GZIP
  else if probeOutput = DIRECTORY then DIRECTORY
  else OCTET

/-! ### Character / string helpers

All string computation is done on `List Char` (`String.data`) so that every
definition reduces in the kernel. -/

/-- Whitespace recognised by `String.prototype.trim` (ASCII portion). -/
def isWS (c : Char) : Bool := c = ' ' || c = '\t' || c = '\n' || c = '\r'

/-- JS `s.trim()`. -/
def trimStr (s : String) : String :=
  String.mk (((s.data.dropWhile isWS).reverse.dropWhile isWS).reverse)

/-- Substring test: JS `/needle/.test(hay)` for a plain-text `needle`. -/
def containsSub (needle : List Char) : List Char → Bool
  | [] => needle = []
  | c :: rest => needle.isPrefixOf (c :: rest) || containsSub needle rest

/-- Split a character list on a separator, JS `String.prototype.split`. -/
def splitOnChar (sep : Char) : List Char → List (List Char)
  | [] => [[]]
  | c :: rest =>
    let r := splitOnChar sep rest
    if c = sep then [] :: r
    else
      match r with
      | h :: t => (c :: h) :: t
      | [] => [[c]]

/-- JS `Array.prototype.join('/')` on split pieces. -/
def joinWithSlash : List (List Char) → List Char
  | [] => []
  | [p] => p
  | p :: ps => p ++ '/' :: joinWithSlash ps

/-- POSIX `path.isAbsolute`: the path starts with `/`. -/
def isAbsolute (p : String) : Bool :=
  match p.data with
  | c :: _ => c == '/'
  | [] => false

/-- Model of `nodePath.resolve` (a collaborator from `node:path`): an
absolute argument is returned as is, a relative one is joined onto the
current working directory.  Dot-segment normalisation is not modelled; no
claim depends on it. -/
def resolvePath (cwd p : String) : String :=
  if isAbsolute p then p else cwd ++ "/" ++ p

/-! ### The extension regex (`setExtension`, line 180)

`/\.*(\.(t(ar)?(\.?gz)?)|(zip)?|(gz)?)$/` is anchored at the end only, and
its second and third alternatives are optional groups, so it can match the
empty string at the end of any input.  A match at position `i` must extend
to the end of the string, so the matched text is the whole suffix starting
at `i`; `exec` returns the suffix of the leftmost position at which the
body (a run of dots followed by one alternative) reaches the end. -/

/-- The strings the alternation
`(\.(t(ar)?(\.?gz)?)|(zip)?|(gz)?)` can match:
six expansions of the first alternative, `zip`, `gz`, and the empty match
of the optional groups. -/
def extAlternatives : List (List Char) :=
  [".t".data, ".tar".data, ".tgz".data, ".t.gz".data, ".targz".data,
   ".tar.gz".data, "zip".data, "gz".data, []]

/-- A suffix is matched by the regex body when it is a run of dots
(`\.*`) followed by one of the alternatives, ending exactly at `$`. -/
def extBodyMatches (s : List Char) : Bool :=
  (List.range (s.length + 1)).any fun k =>
    ((s.take k).all fun c => c = '.') && extAlternatives.contains (s.drop k)

/-- `regex.exec(file)`: the matched text at the leftmost matching position,
i.e. the longest suffix matched by the body; `none` would model a `null`
result. -/
def extExec : List Char → Option (List Char)
  | [] => if extBodyMatches [] then some [] else none
  | c :: rest =>
    if extBodyMatches (c :: rest) then some (c :: rest) else extExec rest

/-- `/\.?tar$/.test(ext)` (line 197): the optional leading dot makes this a
plain ends-with-`tar` test. -/
def tarEndTest (s : List Char) : Bool :=
  "tar".data.isSuffixOf s

/-! ### Classification flags -/

/-- The boolean classification fields initialised in the constructor
(lines 44-47).  `strayIsGzipFile` models the property written by line 206
(`this.isGzipFile = true`, note the missing underscore) — a distinct
property from `this._isGzipFile`, absent (`undefined`, here `none`) until
that line runs. -/
structure Flags where
  isTarFile : Bool := false
  isGzipFile : Bool := false
  isZipFile : Bool := false
  isCompressed : Bool := false
  strayIsGzipFile : Option Bool := none
deriving Repr, DecidableEq

/-- The four sequential `if` blocks of `setExtension` (lines 185-208),
applied to the stored mimetype and the matched extension text `ext[0]`. -/
def setExtensionFlags (mimetype : String) (ext0 : List Char) (f : Flags) : Flags :=
  let f := if mimetype = ZIP then
      { f with isCompressed := true, isZipFile := true,
               isGzipFile := false, isTarFile := false }
    else f
  let f := if mimetype = GZIP then
      { f with isCompressed := true, isGzipFile := true,
               isZipFile := false, isTarFile := false }
    else f
  let f := if tarEndTest ext0 then
      { f with isTarFile := true, isCompressed := false,
               isZipFile := false, isGzipFile := false }
    else f
  let f := if ext0 = ".tar.gz".data ∨ ext0 = ".tgz".data then
      { f with isCompressed := true, isTarFile := true,
               strayIsGzipFile := some true, isZipFile := false }
    else f
  f

/-- The five archive families named by the specification.  The source has
no representation of a Rar family; this tag is derived from the dispatch
conditions of `unpack` (lines 387-401). -/
inductive Family where
  | plainTar
  | compressedTar
  | gzip
  | zip
deriving Repr, DecidableEq

/-- The family selected by the `unpack` dispatch chain (lines 387-401),
in the code's branch order; `none` is the `Not an archive?` branch. -/
def familyOf (f : Flags) : Option Family :=
  if f.isTarFile && !f.isCompressed then some .plainTar
  else if f.isTarFile && f.isGzipFile then some .compressedTar
  else if f.isGzipFile && f.isCompressed then some .gzip
  else if f.isZipFile then some .zip
  else none

/-! ### Tool bindings and the effect environment -/

/-- The JS value held by the lazily resolved tool fields `_tar`, `_gzip`,
`_unzip`: `null` initially, `false` when the `which` output does not name
the tool (lines 258-261), or the `{ path, version }` object.
`jsUndefined` models reading a property that was never assigned. -/
inductive ToolRef where
  | jsNull
  | jsUndefined
  | jsFalse
  | bound (path : String) (version : String)
deriving Repr, DecidableEq

/-- What `fs.stat` reports for a path. -/
inductive StatKind where
  | file
  | dir
  | other
deriving Repr, DecidableEq

/-- The external collaborators consumed by the class, as pure oracles:

* `run c` models `await cmd(c)` (`child_process.exec`): `.error m` is a
  rejected promise with message `m`, `.ok (stdout, stderr)` a resolution
  (streams already captured, `stdout` as delivered, i.e. untrimmed);
* `toolVersion name path` models the `` `${path} --version | awk …` ``
  (resp. `-v | awk …`) pipelines of `whichTar`/`whichGzip`/`whichUnzip`,
  returning the pipeline's stdout;
* `statKind p` models `await fs.stat(p)`: `none` is a thrown error,
  `some k` a successful stat of kind `k`;
* `probe p` models the stdout (already trimmed) of
  `` `file --mime-type --brief '${p}'` `` from `setMimetype`, `none` its
  rejection;
* `renameFs a b` models `await fs.rename(a, b)`: `none` is a thrown
  error. -/
structure Env where
  run : String → Except String (String × String)
  toolVersion : String → String → Except String String
  statKind : String → Option StatKind
  probe : String → Option String
  renameFs : String → String → Option Unit

/-! ### `node:path` parsing (collaborator)

`nodePath.parse` is consumed for `.dir`, `.base`, `.name` and `.ext`. -/

/-- `nodePath.parse(p).base`: the last `/`-separated component. -/
def parseBase (p : String) : String :=
  String.mk ((splitOnChar '/' p.data).getLastD [])

/-- `nodePath.parse(p).dir`: everything before the last component (the
root special case keeps `/`). -/
def parseDir (p : String) : String :=
  match (splitOnChar '/' p.data).dropLast with
  | [[]] => "/"
  | ps => String.mk (joinWithSlash ps)

/-- Position of the last dot in a base name, if any. -/
def lastDotPos (l : List Char) : Option Nat :=
  (List.range l.length).foldl
    (fun acc i => if l.get? i = some '.' then some i else acc) none

/-- `nodePath.parse`'s split of a base name into `.name` and `.ext`: the
extension starts at the last dot unless that dot is the first character. -/
def parseNameExt (base : List Char) : List Char × List Char :=
  match lastDotPos base with
  | some i => if i = 0 then (base, []) else (base.take i, base.drop i)
  | none => (base, [])

/-! ### Instance state -/

/-- The instance fields of `Unpacker` (constructor, lines 36-53) that the
modelled operations read or write.  `path`/`mimetype`/… are `Option`s whose
`none` is the constructor's `null`. -/
structure UnpackerState where
  path : Option String := none
  fileDir : Option String := none
  fileBase : Option String := none
  fileName : Option String := none
  fileParseExt : Option String := none
  fileBasename : Option String := none
  fileExt : Option String := none
  mimetype : Option String := none
  flags : Flags := {}
  tar : ToolRef := .jsNull
  gzip : ToolRef := .jsNull
  unzip : ToolRef := .jsNull
  cwd : String := "/"
deriving Repr, DecidableEq

/-- `getPath` (line 61). -/
def getPath (st : UnpackerState) : Option String := st.path

/-- `getMimetype` (line 130). -/
def getMimetype (st : UnpackerState) : Option String := st.mimetype

/-- `getExtension` (line 218). -/
def getExtension (st : UnpackerState) : Option String := st.fileExt

/-- `getFileBasename` (line 241). -/
def getFileBasename (st : UnpackerState) : Option String := st.fileBasename

/-- JS template interpolation of a possibly-`null` string field. -/
def jsRender : Option String → String
  | some s => s
  | none => "null"

/-- Error values: `simple` is `new Error(msg)`, `withCause msg c` is
`new Error(msg, { cause: c })`. -/
inductive UErr where
  | simple (msg : String)
  | withCause (msg : String) (cause : UErr)
deriving Repr, DecidableEq

/-- `whichTar` / `whichGzip` / `whichUnzip` (lines 253-336), parameterised
by the tool name: run `which <name>`; when the trimmed stdout fails the
`/<name>/` test, record `false` and stop; otherwise probe the version
pipeline and record the `{ path, version }` binding.  A rejection of
either `cmd` is rethrown (`throw new Error(e)`). -/
def whichTool (env : Env) (name : String) : Except String ToolRef :=
  match env.run ("which " ++ name) with
  | .error m => .error m
  | .ok (out, _) =>
    let path := trimStr out
    if !(containsSub name.data path.data) then .ok .jsFalse
    else
      match env.toolVersion name path with
      | .error m => .error m
      | .ok v => .ok (.bound path (trimStr v))

/-- The lazy-resolution guard used by `setPath` and `checkCommands`:
`if (this._tar === null) await this.whichTar()`. -/
def resolveIfNull (env : Env) (name : String) (current : ToolRef) :
    Except String ToolRef :=
  if current = .jsNull then whichTool env name else .ok current

/-- `checkCommands` (lines 345-356): resolve each still-`null` binding and
return the object literal `{ tar: this._tar, gzip: this._gzip, unzip:
this._unzip }`, here as the association list of its properties.  There is
no `try`/`catch`: an error from a `which` lookup propagates. -/
def checkCommands (env : Env) (st : UnpackerState) :
    Except String (UnpackerState × List (String × ToolRef)) :=
  match resolveIfNull env "tar" st.tar with
  | .error m => .error m
  | .ok t =>
    match resolveIfNull env "gzip" st.gzip with
    | .error m => .error m
    | .ok g =>
      match resolveIfNull env "unzip" st.unzip with
      | .error m => .error m
      | .ok u =>
        .ok ({ st with tar := t, gzip := g, unzip := u },
             [("tar", t), ("gzip", g), ("unzip", u)])

/-- `setFileBasename` (lines 228-233) matches `this._file.base` against
`` `^(.*)${this._fileExt}$` ``.  The interpolated extension is not regex
escaped, so each of its dots matches any character; the extension text has
no other metacharacters, so it consumes exactly its own length.  This
checks that suffix. -/
def basenamePatternMatches (ext0 base : List Char) : Bool :=
  ext0.length ≤ base.length &&
    (List.zip (base.drop (base.length - ext0.length)) ext0).all
      fun p => p.2 = '.' || p.2 = p.1

/-- `setPath` (lines 74-122).  The argument is `none` for a call with no
argument; `!filePath` is the JS falsy test.  Each phase reproduces one
`try`/`catch` of the source:
tool resolution (`Failed to find <tool>.`), stat + mimetype + parse
(`Not a valid file path:`), `setExtension` (`File extension problem:`),
`setFileBasename` (`File basename problem:`). -/
def setPath (env : Env) (st : UnpackerState) (filePath : Option String) :
    Except UErr UnpackerState :=
  if (filePath.getD "") = "" then
    .error (.simple "Missing required path argument.")
  else
    let p := filePath.getD ""
    match resolveIfNull env "tar" st.tar with
    | .error _ => .error (.simple "Failed to find tar.")
    | .ok tarV =>
      match resolveIfNull env "gzip" st.gzip with
      | .error _ => .error (.simple "Failed to find gzip.")
      | .ok gzipV =>
        match resolveIfNull env "unzip" st.unzip with
        | .error _ => .error (.simple "Failed to find unzip.")
        | .ok unzipV =>
          let st := { st with tar := tarV, gzip := gzipV, unzip := unzipV }
          match env.statKind p with
          | some .file =>
            let resolved := resolvePath st.cwd p
            match env.probe resolved with
            | none => .error (.simple ("Not a valid file path: " ++ p))
            | some probeOut =>
              let base := parseBase resolved
              let ne := parseNameExt base.data
              let st := { st with
                path := some resolved,
                mimetype := some (setMimetypeSwitch probeOut),
                fileDir := some (parseDir resolved),
                fileBase := some base,
                fileName := some (String.mk ne.1),
                fileParseExt := some (String.mk ne.2) }
              match extExec p.data with
              | none => .error (.simple ("File extension problem: " ++ p))
              | some e =>
                let st := { st with
                  flags := setExtensionFlags (setMimetypeSwitch probeOut) e st.flags,
                  fileExt := some (String.mk e) }
                if basenamePatternMatches e base.data then
                  .ok { st with
                    fileBasename :=
                      some (String.mk (base.data.take (base.data.length - e.length))) }
                else .error (.simple ("File basename problem: " ++ p))
          | some _ => .error (.simple ("Not a valid file path: " ++ p))
          | none => .error (.simple ("Not a valid file path: " ++ p))

/-! ### `unpack` (lines 372-473), `mv` (lines 487-531), `cleanup` (668-675) -/

/-- Caller-supplied `mv` options; fields absent from the object literal are
`none`, so the spread `{ force: true, backup: 'numbered', ...opts }` keeps
the defaults for them. -/
structure MvOptsIn where
  force : Option Bool := none
  backup : Option String := none
deriving Repr, DecidableEq

/-- The merged options after the spread and the `darwin` override
(lines 374-378).  `backup = none` models the JS boolean `false` assigned on
darwin; only the string `"numbered"` later enables `--backup=numbered`. -/
structure MergedOptions where
  force : Bool
  backup : Option String
deriving Repr, DecidableEq

/-- Lines 374-378. -/
def mergeOptions (platform : String) (opts : Option MvOptsIn) : MergedOptions :=
  { force := (opts.bind MvOptsIn.force).getD true,
    backup :=
      if platform = "darwin" then none
      else some ((opts.bind MvOptsIn.backup).getD "numbered") }

/-- The `rename` argument of `unpack`. -/
structure RenameOpts where
  rename : Bool
  newName : String
deriving Repr, DecidableEq

/-- The object returned by `unpack`: the `cmd` result augmented with the
properties assigned in lines 433-465.  A field that no statement assigns
stays `none` (JS `undefined`); in particular `finalPath`, which the
specification and `test/first-test.js` name, is assigned nowhere in
`src/index.js` and is carried here so that its absence is expressible. -/
structure UnpackResult where
  stdout : String
  stderr : String
  unpacked : Option Bool := none
  cwd : Option String := none
  destination : Option String := none
  finalPath : Option String := none
deriving Repr, DecidableEq

/-- Property access `x.path` in a template literal: on the `{path,version}`
object it yields the path; on the boolean `false` sentinel it yields
`undefined`, which interpolates as the text `undefined`; on `null` or
`undefined` it would raise a `TypeError`. -/
def jsMemberPath : ToolRef → Except UErr String
  | .bound p _ => .ok p
  | .jsFalse => .ok "undefined"
  | .jsNull => .error (.simple "TypeError: cannot read path of null")
  | .jsUndefined => .error (.simple "TypeError: cannot read path of undefined")

/-- Line 386. -/
def tarExcludes : String :=
  "--exclude=__MACOSX* --exclude=._* --exclude=.git* --exclude=.svn*"

/-- Line 398. -/
def zipExcludes : String := "-x '__MACOSX*'"

/-- The command-construction dispatch of `unpack` (lines 385-402), keyed on
the classification flags, in source order; the final branch is
`throw new Error(`Not an archive? ...`)`. -/
def buildUnpackCommand (st : UnpackerState) : Except UErr String :=
  if st.flags.isTarFile && !st.flags.isCompressed then
    (jsMemberPath st.tar).map fun p =>
      p ++ " " ++ tarExcludes ++ " -xf " ++ jsRender st.path
  else if st.flags.isTarFile && st.flags.isGzipFile then
    (jsMemberPath st.tar).map fun p =>
      p ++ " " ++ tarExcludes ++ " -xzf " ++ jsRender st.path
  else if st.flags.isGzipFile && st.flags.isCompressed then
    (jsMemberPath st.gzip).map fun p =>
      p ++ " --decompress --keep --suffix " ++ jsRender st.fileParseExt
        ++ " " ++ jsRender st.path
  else if st.flags.isZipFile then
    (jsMemberPath st.unzip).map fun p =>
      p ++ " " ++ jsRender st.path ++ " " ++ zipExcludes
  else .error (.simple ("Not an archive? " ++ jsRender st.path))

/-- Line 408: `destination.replace(/(.*[^\/])$/, '$1/')` appends a slash
unless the string already ends in one (the pattern needs a final non-slash
character, and cannot match the empty string). -/
def ensureTrailingSlash (s : String) : String :=
  match s.data.getLast? with
  | some '/' => s
  | some _ => s ++ "/"
  | none => s

/-- The execution try-block of `unpack` (lines 409-421): run the command;
a rejection, or a non-empty stderr paired with an empty stdout, is wrapped
as `new Error('Failed trying to move unpacked file(s)', { cause })` where
the cause carries the diagnostic. -/
def execPhase (env : Env) (c : String) : Except UErr (String × String) :=
  match env.run c with
  | .error m =>
    .error (.withCause "Failed trying to move unpacked file(s)" (.simple m))
  | .ok (out, err) =>
    if err != "" && out == "" then
      .error (.withCause "Failed trying to move unpacked file(s)" (.simple err))
    else .ok (out, err)

/-- JS word character, `\w` = `[A-Za-z0-9_]`. -/
def isWordChar (c : Char) : Bool := c.isAlpha || c.isDigit || c = '_'

/-- Whether `((\.?)\w+)?$` can consume a remainder `t` (an optional dot
followed by word characters spanning all of `t`, or the empty option with
`t` already at the end). -/
def stemGroup2Matches (t : List Char) : Bool :=
  t = [] ||
  (match t with
   | '.' :: rest => rest ≠ [] && rest.all isWordChar
   | _ => t ≠ [] && t.all isWordChar)

/-- Line 441: `basename.replace(/^(\w+?[^\.]*)((\.?)\w+)?$/, '$1')`, which
strips a final dot-extension from the staged file's basename.  `\w+?` is
lazy (shortest first) and `[^\.]*` greedy (longest first); the first
`(group1 length)` choice in that backtracking order wins.  When the
pattern does not match, `replace` returns the string unchanged. -/
def gzipStem (s : List Char) : List Char :=
  match (List.range s.length).findSome? (fun i =>
    let aLen := i + 1
    if (s.take aLen).all isWordChar then
      let after := s.drop aLen
      let maxB := (after.takeWhile fun c => c ≠ '.').length
      ((List.range (maxB + 1)).map fun j => maxB - j).findSome? fun bLen =>
        if stemGroup2Matches (after.drop bLen) then
          some (s.take (aLen + bLen))
        else none
    else none) with
  | some g1 => g1
  | none => s

/-- `mv` (lines 487-531).  The spread `{ makeDir: true, ...options }` only
adds a field no later statement reads, so the merged options suffice.  The
returned list extends `trace` with every command handed to `cmd`. -/
def mv (env : Env) (source destination : String) (options : MergedOptions)
    (trace : List String) : Except UErr Bool × List String :=
  if source = "" then (.error (.simple "Missing source argument"), trace)
  else if destination = "" then
    (.error (.simple "Missing destination argument"), trace)
  else
    match env.statKind source with
    | none => (.error (.simple ("Source missing directory: " ++ source)), trace)
    | some _ =>
      let mkStep : Except UErr Unit × List String :=
        match env.statKind destination with
        | some _ => (.ok (), trace)
        | none =>
          let mk := "mkdir -v -p " ++ destination
          match env.run mk with
          | .error m => (.error (.simple m), trace ++ [mk])
          | .ok (_, e) =>
            if trimStr e != "" then
              (.error (.simple ("Failed to make dir: " ++ destination)),
               trace ++ [mk])
            else (.ok (), trace ++ [mk])
      match mkStep with
      | (.error e, tr) => (.error e, tr)
      | (.ok _, tr) =>
        match env.statKind destination with
        | none =>
          (.error (.withCause "Move failed. Cause: "
             (.simple ("stat failed: " ++ destination))), tr)
        | some k =>
          if k == StatKind.dir && !options.force then
            (.error (.withCause "Move failed. Cause: "
               (.simple ("Destination already exists, no over-writing:  "
                 ++ destination))), tr)
          else
            let mvCmd := "mv " ++ (if options.force then "-f" else "") ++ " "
              ++ (if options.backup = some "numbered" then "--backup=numbered"
                  else "")
              ++ " " ++ source ++ " " ++ destination
            match env.run mvCmd with
            | .error m =>
              (.error (.withCause "Move failed. Cause: " (.simple m)),
               tr ++ [mvCmd])
            | .ok (_, e) =>
              if e != "" then
                (.error (.withCause "Move failed. Cause: "
                   (.simple ("Move failed. source: " ++ source
                     ++ " destination: " ++ destination))), tr ++ [mvCmd])
              else (.ok true, tr ++ [mvCmd])

/-- `cleanup(artifact)` (lines 668-675): `rm -rf ${this._cwd}/${artifact}`
with any rejection swallowed; only the issued command is observable. -/
def cleanup (st : UnpackerState) (artifact : String)
    (trace : List String) : List String :=
  trace ++ ["rm -rf " ++ st.cwd ++ "/" ++ artifact]

/-- The property read `this.gzip` in line 382 — note the missing
underscore: no statement of the class ever assigns a `gzip` property, so
the read yields `undefined`. -/
def gzipPropertyNoUnderscore (_st : UnpackerState) : ToolRef :=
  ToolRef.jsUndefined

/-- JS strict equality `x === null` on a tool field's value. -/
def strictEqNull : ToolRef → Bool
  | .jsNull => true
  | _ => false

/-- JS `String(e)` on an error, as used by `new Error(e, { cause })`. -/
def renderUErr : UErr → String
  | .simple m => "Error: " ++ m
  | .withCause m _ => "Error: " ++ m

/-- `unpack(moveTo, opts, rename)` (lines 372-473).  Returns the result of
the call together with the trace of every command handed to `cmd`
(so that what was and was not executed is expressible).  Phases, in source
order: option merge and darwin override; the two tool guards (lines
379-384; note the second tests the never-assigned `this.gzip`); command
construction (385-402); destination resolution and trailing slash
(406-408); execution and the stderr/stdout check (409-421); staging-path
stat, gzip destination adjustment and `mv` (422-449), where a thrown
error `e` is rethrown as `new Error(e, { cause: 'Error ocurred trying to
move …' })`; cleanup (450-455); the optional rename (456-471), whose own
errors are rethrown unwrapped. -/
def unpack (env : Env) (platform : String) (st : UnpackerState)
    (moveTo : Option String) (opts : Option MvOptsIn)
    (rename : Option RenameOpts) :
    Except UErr UnpackResult × List String :=
  let destination0 := moveTo.getD "."
  let options := mergeOptions platform opts
  if st.tar == ToolRef.jsNull && st.mimetype == some TAR then
    (.error (.simple ("Archive is " ++ jsRender st.mimetype
       ++ ", but can't find tar executable.")), [])
  else if strictEqNull (gzipPropertyNoUnderscore st)
      && st.mimetype == some GZIP then
    (.error (.simple ("Archive is " ++ jsRender st.mimetype
       ++ ", but can't find gzip executable.")), [])
  else
    match buildUnpackCommand st with
    | .error e => (.error e, [])
    | .ok unpackCmd =>
      let destination := ensureTrailingSlash (resolvePath st.cwd destination0)
      match execPhase env unpackCmd with
      | .error e => (.error e, [unpackCmd])
      | .ok (out, err) =>
        let tempDir :=
          if st.flags.isTarFile || st.flags.isZipFile then
            st.cwd ++ "/" ++ jsRender st.fileBasename
          else
            jsRender st.fileDir ++ "/" ++ jsRender st.fileBasename
        match env.statKind tempDir with
        | none =>
          (.error (.withCause ("Error: stat failed: " ++ tempDir)
             (.simple ("Error ocurred trying to move " ++ tempDir ++ " to "
               ++ destination))), [unpackCmd])
        | some k =>
          let res0 : UnpackResult :=
            if k == StatKind.dir || k == StatKind.file then
              { stdout := out, stderr := err,
                unpacked := some true, cwd := some tempDir }
            else { stdout := out, stderr := err }
          let destination :=
            if k == StatKind.file then
              destination ++ String.mk (gzipStem (jsRender st.fileBasename).data)
                ++ "/"
            else destination
          match mv env tempDir destination options [unpackCmd] with
          | (.error e, tr) =>
            (.error (.withCause (renderUErr e)
               (.simple ("Error ocurred trying to move " ++ tempDir ++ " to "
                 ++ destination))), tr)
          | (.ok _, tr) =>
            let res1 := { res0 with destination := some destination }
            let tr := cleanup st "__MACOSX" tr
            let tr := cleanup st ("._" ++ jsRender st.fileName) tr
            match rename with
            | some r =>
              if r.rename then
                let fullDestination := destination ++
                  String.mk ((splitOnChar '/' tempDir.data).getLastD [])
                let renamedDestination := String.mk (joinWithSlash
                  ((splitOnChar '/' destination.data).dropLast
                    ++ [r.newName.data]))
                match env.renameFs fullDestination renamedDestination with
                | none =>
                  (.error (.simple ("rename failed: " ++ fullDestination)), tr)
                | some _ =>
                  (.ok { res1 with destination := some renamedDestination }, tr)
              else (.ok res1, tr)
            | none => (.ok res1, tr)

end Unpacker

/-! Sanity checks of the extension matcher against the test fixtures of
`test/first-test.js`. -/

example : Unpacker.extExec "marquetry.tar".data = some ".tar".data := by decide

example : Unpacker.extExec "marquetry.tar.gz".data = some ".tar.gz".data := by decide

example : Unpacker.extExec "marquetry.tgz".data = some ".tgz".data := by decide

example : Unpacker.extExec "singleton.jpg.gz".data = some ".gz".data := by decide

example : Unpacker.extExec "tiny.zip".data = some ".zip".data := by decide

example : Unpacker.extExec "marquetryRAR.rar".data = some "".data := by decide

namespace Unpacker

def st0 : UnpackerState := { cwd := "/www/app" }

def okStateD (d : UnpackerState) : Except UErr UnpackerState → UnpackerState
  | .ok st => st
  | .error _ => d

def isOkE {ε α : Type} : Except ε α → Bool
  | .ok _ => true
  | .error _ => false

def tgzEnv : Env :=
  { run := fun c =>
      if c = "which tar" then .ok ("/usr/bin/tar", "")
      else if c = "which gzip" then .ok ("/usr/bin/gzip", "")
      else if c = "which unzip" then .ok ("/usr/bin/unzip", "")
      else if c = "/usr/bin/tar " ++ tarExcludes ++ " -xzf /tmp/marquetry.tgz" then .ok ("", "")
      else if c = "mv -f --backup=numbered /www/app/marquetry /www/app/static/albums/" then .ok ("", "")
      else if c = "rm -rf /www/app/__MACOSX" then .ok ("", "")
      else if c = "rm -rf /www/app/._marquetry" then .ok ("", "")
      else .error ("unexpected command: " ++ c),
    toolVersion := fun _ _ => .ok "1.30",
    statKind := fun p =>
      if p = "/tmp/marquetry.tgz" then some .file
      else if p = "/www/app/marquetry" then some .dir
      else if p = "/www/app/static/albums/" then some .dir
      else none,
    probe := fun _ => some GZIP,
    renameFs := fun _ _ => some () }

def tgzState : UnpackerState :=
  okStateD st0 (setPath tgzEnv st0 (some "/tmp/marquetry.tgz"))

end Unpacker

example : Unpacker.isOkE (Unpacker.setPath Unpacker.tgzEnv Unpacker.st0 (some "/tmp/marquetry.tgz")) = true := by decide

example : Unpacker.tgzState.fileExt = some ".tgz" ∧ Unpacker.tgzState.fileBasename = some "marquetry" ∧ Unpacker.tgzState.fileName = some "marquetry" ∧ Unpacker.tgzState.fileDir = some "/tmp" ∧ Unpacker.tgzState.mimetype = some Unpacker.GZIP ∧ Unpacker.familyOf Unpacker.tgzState.flags = some .compressedTar := by decide

example : (Unpacker.unpack Unpacker.tgzEnv "linux" Unpacker.tgzState (some "/www/app/static/albums") none (some { rename := true, newName := "_0000000001" })).fst
  = .ok { stdout := "", stderr := "", unpacked := some true, cwd := some "/www/app/marquetry",
          destination := some "/www/app/static/albums/_0000000001", finalPath := none } := by decide

namespace Unpacker

def rarEnv : Env :=
  { run := fun c =>
      if c = "which tar" then .ok ("/usr/bin/tar", "")
      else if c = "which gzip" then .ok ("/usr/bin/gzip", "")
      else if c = "which unzip" then .ok ("/usr/bin/unzip", "")
      else .error ("unexpected command: " ++ c),
    toolVersion := fun _ _ => .ok "1.30",
    statKind := fun p => if p = "/tmp/marquetryRAR.rar" then some .file else none,
    probe := fun _ => some "application/x-rar",
    renameFs := fun _ _ => none }

def rarState : UnpackerState :=
  okStateD st0 (setPath rarEnv st0 (some "/tmp/marquetryRAR.rar"))

def noTarEnv : Env :=
  { run := fun c =>
      if c = "which tar" then .ok ("", "")
      else if c = "which gzip" then .ok ("/usr/bin/gzip", "")
      else if c = "which unzip" then .ok ("/usr/bin/unzip", "")
      else .error ("command not found: " ++ c),
    toolVersion := fun _ _ => .ok "1.30",
    statKind := fun p => if p = "/tmp/a.tar" then some .file else none,
    probe := fun _ => some TAR,
    renameFs := fun _ _ => none }

def noTarState : UnpackerState :=
  okStateD st0 (setPath noTarEnv st0 (some "/tmp/a.tar"))

end Unpacker

example : Unpacker.isOkE (Unpacker.setPath Unpacker.rarEnv Unpacker.st0 (some "/tmp/marquetryRAR.rar")) = true := by decide

example : Unpacker.rarState.mimetype = some Unpacker.OCTET ∧ Unpacker.rarState.fileExt = some "" ∧ Unpacker.familyOf Unpacker.rarState.flags = none := by decide

example : (Unpacker.unpack Unpacker.rarEnv "linux" Unpacker.rarState (some "/tmp/out") none none)
  = (.error (.simple "Not an archive? /tmp/marquetryRAR.rar"), []) := by decide

example : Unpacker.noTarState.tar = .jsFalse ∧ Unpacker.noTarState.mimetype = some Unpacker.TAR ∧ Unpacker.familyOf Unpacker.noTarState.flags = some .plainTar := by decide

example : (Unpacker.unpack Unpacker.noTarEnv "linux" Unpacker.noTarState (some "/tmp/out") none none)
  = (.error (.withCause "Failed trying to move unpacked file(s)"
       (.simple ("command not found: undefined " ++ Unpacker.tarExcludes ++ " -xf /tmp/a.tar"))),
     ["undefined " ++ Unpacker.tarExcludes ++ " -xf /tmp/a.tar"]) := by decide

namespace Unpacker

def datEnv : Env :=
  { run := fun c =>
      if c = "which tar" then .ok ("/usr/bin/tar", "")
      else if c = "which gzip" then .ok ("/usr/bin/gzip", "")
      else if c = "which unzip" then .ok ("/usr/bin/unzip", "")
      else .error ("unexpected command: " ++ c),
    toolVersion := fun _ _ => .ok "1.30",
    statKind := fun p => if p = "/tmp/notes.dat" then some .file else none,
    probe := fun _ => some "text/plain",
    renameFs := fun _ _ => none }

def pdfEnv : Env :=
  { run := fun c =>
      if c = "which tar" then .ok ("/usr/bin/tar", "")
      else if c = "which gzip" then .ok ("/usr/bin/gzip", "")
      else if c = "which unzip" then .ok ("/usr/bin/unzip", "")
      else .error ("unexpected command: " ++ c),
    toolVersion := fun _ _ => .ok "1.30",
    statKind := fun p => if p = "/tmp/report.pdf" then some .file else none,
    probe := fun _ => some "application/pdf",
    renameFs := fun _ _ => none }

def envAllTools : Env :=
  { run := fun c =>
      if c = "which tar" then .ok ("/usr/bin/tar", "")
      else if c = "which gzip" then .ok ("/usr/bin/gzip", "")
      else if c = "which unzip" then .ok ("/usr/bin/unzip", "")
      else .error ("unexpected command: " ++ c),
    toolVersion := fun _ _ => .ok "1.30",
    statKind := fun _ => none,
    probe := fun _ => none,
    renameFs := fun _ _ => none }

end Unpacker

example : (Unpacker.setPath Unpacker.datEnv Unpacker.st0 (some "/tmp/notes.dat")).map
    (fun st => (Unpacker.getMimetype st, Unpacker.getExtension st, Unpacker.familyOf st.flags))
  = .ok (some Unpacker.OCTET, some "", none) := by decide

example : (Unpacker.setPath Unpacker.pdfEnv Unpacker.st0 (some "/tmp/report.pdf")).map
    (fun st => (Unpacker.isAbsolute (Unpacker.jsRender st.path), Unpacker.familyOf st.flags))
  = .ok (true, none) := by decide

example : Unpacker.checkCommands Unpacker.envAllTools Unpacker.st0
  = .ok ({ Unpacker.st0 with
            tar := .bound "/usr/bin/tar" "1.30",
            gzip := .bound "/usr/bin/gzip" "1.30",
            unzip := .bound "/usr/bin/unzip" "1.30" },
         [("tar", .bound "/usr/bin/tar" "1.30"),
          ("gzip", .bound "/usr/bin/gzip" "1.30"),
          ("unzip", .bound "/usr/bin/unzip" "1.30")]) := by decide

namespace Unpacker

/-- Every branch of the `setMimetype` switch stores one of the five
constants. -/
theorem mimeSwitch_mem (s : String) :
    setMimetypeSwitch s = TAR ∨ setMimetypeSwitch s = ZIP
    ∨ setMimetypeSwitch s = GZIP ∨ setMimetypeSwitch s = DIRECTORY
    ∨ setMimetypeSwitch s = OCTET := by
  unfold setMimetypeSwitch
  repeat' split
  all_goals simp

/-- Appending anything to an absolute path keeps it absolute. -/
theorem isAbsolute_append (a b : String) (h : isAbsolute a = true) :
    isAbsolute (a ++ b) = true := by
  cases a with | mk d =>
  cases b with | mk e =>
  cases d with
  | nil => simp [isAbsolute] at h
  | cons c t => exact h

end Unpacker

namespace Unpacker

/-- C3: the object literal returned by `checkCommands` has exactly the
properties `tar`, `gzip`, `unzip` — no rar-family binding. -/
theorem checkCommands_snapshot_keys (env : Env) (st st' : UnpackerState)
    (snap : List (String × ToolRef))
    (h : checkCommands env st = .ok (st', snap)) :
    snap.map Prod.fst = ["tar", "gzip", "unzip"] := by
  unfold checkCommands at h
  split at h
  · exact Except.noConfusion h
  split at h
  · exact Except.noConfusion h
  split at h
  · exact Except.noConfusion h
  injection h with h1
  injection h1 with h2 h3
  subst h3
  rfl

end Unpacker

namespace Unpacker

/-- Any successful `setPath` stores `some (setMimetypeSwitch out)` for the
probe output `out` it saw, and the stored path is the resolved one. -/
theorem setPath_ok_shape (env : Env) (st : UnpackerState) (p : String)
    (st' : UnpackerState) (h : setPath env st (some p) = .ok st') :
    (∃ s, getMimetype st' = some (setMimetypeSwitch s))
    ∧ st'.path = some (resolvePath st.cwd p) := by
  simp only [setPath] at h
  repeat' split at h
  all_goals first
    | exact Except.noConfusion h
    | (injection h with h1; subst h1; exact ⟨⟨_, rfl⟩, rfl⟩)

end Unpacker

namespace Unpacker

/-- When the tool bindings are already resolved and `fs.stat` does not
report a regular file, `setPath` fails with the wrapped
`Not a valid file path` error. -/
theorem setPath_stat_not_file (env : Env) (st : UnpackerState) (p : String)
    (hp : p ≠ "")
    (h1 : st.tar ≠ ToolRef.jsNull) (h2 : st.gzip ≠ ToolRef.jsNull)
    (h3 : st.unzip ≠ ToolRef.jsNull)
    (hstat : env.statKind p ≠ some StatKind.file) :
    setPath env st (some p) = .error (.simple ("Not a valid file path: " ++ p)) := by
  simp only [setPath, Option.getD, resolveIfNull, if_neg h1, if_neg h2,
    if_neg h3, if_neg hp]
  rcases hk : env.statKind p with _ | k
  · rfl
  · cases k
    · exact absurd hk hstat
    · rfl
    · rfl

end Unpacker

namespace Unpacker

/-- C1: on a `.rar` archive (content probe `application/x-rar`), `setPath`
returns successfully but records mimetype `application/octet-stream`, the
matched extension is the empty string, no family flag is set, and the
`unpack` dispatch — whose branches cover only tar, compressed tar, gzip
and zip — falls through to the `Not an archive?` error without executing
any command.  This refutes the claimed end-to-end Rar support: there is no
dispatch branch keyed to a Rar family. -/
theorem rar_family_not_supported :
    (setPath rarEnv st0 (some "/tmp/marquetryRAR.rar")).map
        (fun st => (getMimetype st, getExtension st, familyOf st.flags))
      = .ok (some OCTET, some "", none)
    ∧ (unpack rarEnv "linux" rarState (some "/tmp/out") none none)
      = (.error (.simple "Not an archive? /tmp/marquetryRAR.rar"), []) := by
  decide

/-- C2: a successful `unpack` with `{rename: true, newName: "_0000000001"}`
on a `.tgz` archive returns a result whose `finalPath` property is absent
(`undefined`): the rename branch writes the renamed location into
`result.destination` (line 465) and no statement of the class ever assigns
`finalPath`; likewise a successful call without a rename request carries no
`finalPath`.  This refutes the claim that `finalPath` reflects the final
location. -/
theorem unpack_result_has_no_finalPath :
    (unpack tgzEnv "linux" tgzState (some "/www/app/static/albums") none
        (some { rename := true, newName := "_0000000001" })).fst
      = .ok { stdout := "", stderr := "", unpacked := some true,
              cwd := some "/www/app/marquetry",
              destination := some "/www/app/static/albums/_0000000001",
              finalPath := none }
    ∧ (unpack tgzEnv "linux" tgzState (some "/www/app/static/albums") none
        none).fst
      = .ok { stdout := "", stderr := "", unpacked := some true,
              cwd := some "/www/app/marquetry",
              destination := some "/www/app/static/albums/",
              finalPath := none } := by
  decide

/-- C3: the snapshot returned by any successful `checkCommands` call has
exactly the keys `tar`, `gzip`, `unzip` — it never contains a binding for
a rar-family tool, refuting the claimed four-tool snapshot. -/
theorem checkCommands_has_no_rar_binding (env : Env) (st st' : UnpackerState)
    (snap : List (String × ToolRef))
    (h : checkCommands env st = .ok (st', snap)) :
    snap.map Prod.fst = ["tar", "gzip", "unzip"]
    ∧ snap.lookup "unrar" = none := by
  have hk := checkCommands_snapshot_keys env st st' snap h
  refine ⟨hk, ?_⟩
  unfold checkCommands at h
  split at h
  · exact Except.noConfusion h
  split at h
  · exact Except.noConfusion h
  split at h
  · exact Except.noConfusion h
  injection h with h1
  injection h1 with h2 h3
  subst h3
  rfl

/-- Witness for C3 at a concrete environment in which all three probed
tools resolve. -/
theorem checkCommands_has_no_rar_binding_witness :
    ([("tar", ToolRef.bound "/usr/bin/tar" "1.30"),
      ("gzip", ToolRef.bound "/usr/bin/gzip" "1.30"),
      ("unzip", ToolRef.bound "/usr/bin/unzip" "1.30")].map Prod.fst
        = ["tar", "gzip", "unzip"])
    ∧ ([("tar", ToolRef.bound "/usr/bin/tar" "1.30"),
        ("gzip", ToolRef.bound "/usr/bin/gzip" "1.30"),
        ("unzip", ToolRef.bound "/usr/bin/unzip" "1.30")].lookup "unrar"
          = none) :=
  checkCommands_has_no_rar_binding envAllTools st0
    { st0 with
      tar := .bound "/usr/bin/tar" "1.30",
      gzip := .bound "/usr/bin/gzip" "1.30",
      unzip := .bound "/usr/bin/unzip" "1.30" }
    [("tar", .bound "/usr/bin/tar" "1.30"),
     ("gzip", .bound "/usr/bin/gzip" "1.30"),
     ("unzip", .bound "/usr/bin/unzip" "1.30")]
    (by decide)

/-- C4: a regular file whose probe output (`text/plain`) and name
(`notes.dat`) both fail to match any archive family is still accepted:
the extension regex matches the empty string on every input, so the
`does not look like a (compressed) archive file` throw of `setExtension`
is unreachable and `setPath` returns successfully, with the empty
extension, octet-stream mimetype and no family selected.  This refutes the
claimed UnrecognizedFormat failure. -/
theorem setPath_accepts_unrecognized_format :
    (setPath datEnv st0 (some "/tmp/notes.dat")).map
        (fun st => (getMimetype st, getExtension st, familyOf st.flags))
      = .ok (some OCTET, some "", none)
    ∧ ∀ s : List Char, (extExec s).isSome := by
  refine ⟨by decide, ?_⟩
  intro s
  induction s with
  | nil => decide
  | cons c rest ih =>
    unfold extExec
    split
    · rfl
    · exact ih

/-- C5: with the tar binding recorded as unavailable (`_tar === false`,
set when the `which tar` output fails the `/tar/` test) and a plain-tar
classification, `unpack` passes the `this._tar === null` guard (lines
379-381), builds the command by reading `.path` off the boolean — which
interpolates as the text `undefined` — and hands that command to `cmd`
for execution; the resulting failure is the wrapped exec rejection, not
the `can't find tar executable` error.  This refutes the claim that no
extraction command is ever executed with an unavailable tool. -/
theorem unpack_executes_with_unavailable_tar :
    noTarState.tar = ToolRef.jsFalse
    ∧ noTarState.mimetype = some TAR
    ∧ familyOf noTarState.flags = some Family.plainTar
    ∧ (unpack noTarEnv "linux" noTarState (some "/tmp/out") none none)
      = (.error (.withCause "Failed trying to move unpacked file(s)"
           (.simple ("command not found: undefined " ++ tarExcludes
             ++ " -xf /tmp/a.tar"))),
         ["undefined " ++ tarExcludes ++ " -xf /tmp/a.tar"]) := by
  decide

/-- C6: `setPath` on a regular file that matches no family (probe
`application/pdf`, name `report.pdf`) succeeds with an absolute stored
path but with every classification flag false, so no family is selected:
classification can leave the instance in a family-less state, refuting the
claimed invariant. -/
theorem setPath_can_leave_familyless_state :
    (setPath pdfEnv st0 (some "/tmp/report.pdf")).map
        (fun st => (isAbsolute (jsRender st.path), familyOf st.flags))
      = .ok (true, none) := by
  decide

end Unpacker

namespace Unpacker

def c7State : UnpackerState :=
  { st0 with flags := setExtensionFlags GZIP ".tar.gz".data {},
             tar := .bound "/usr/bin/tar" "1.30",
             path := some "/tmp/x.tar.gz" }

/-- C7: when the probe reports `application/gzip` and the matched extension
is a tar compound suffix (`.tar.gz` or `.tgz`), the flag updates of
`setExtension` select the compressed-tar dispatch branch — not the
standalone gzip one — regardless of the previous flag state, and the
command `unpack` builds for that state is the tar invocation with the
decompression flag (`-xzf`). -/
theorem compressed_tar_beats_gzip (e : List Char) (f : Flags)
    (tp tv : String) (st : UnpackerState)
    (he : e = ".tar.gz".data ∨ e = ".tgz".data)
    (hf : st.flags = setExtensionFlags GZIP e f)
    (ht : st.tar = .bound tp tv) :
    familyOf (setExtensionFlags GZIP e f) = some Family.compressedTar
    ∧ buildUnpackCommand st =
        .ok (tp ++ " " ++ tarExcludes ++ " -xzf " ++ jsRender st.path) := by
  have hflags : setExtensionFlags GZIP e f =
      { isTarFile := true, isGzipFile := true, isZipFile := false,
        isCompressed := true, strayIsGzipFile := some true } := by
    rcases he with rfl | rfl <;> rfl
  constructor
  · rw [hflags]
    rfl
  · unfold buildUnpackCommand
    rw [hf, hflags, ht]
    rfl

/-- Witness for C7 on the `.tar.gz` suffix with fresh flags. -/
theorem compressed_tar_beats_gzip_witness :
    familyOf (setExtensionFlags GZIP ".tar.gz".data {}) = some Family.compressedTar
    ∧ buildUnpackCommand c7State =
        .ok ("/usr/bin/tar" ++ " " ++ tarExcludes ++ " -xzf "
          ++ jsRender c7State.path) :=
  compressed_tar_beats_gzip ".tar.gz".data {} "/usr/bin/tar" "1.30" c7State
    (Or.inl rfl) rfl rfl

/-- C8: for an execution that resolves with streams `(stdout, stderr)`,
the post-execution check of `unpack` (lines 414-421) fails — wrapping the
diagnostic as the cause of the `Failed trying to move unpacked file(s)`
error — exactly when stderr is non-empty and stdout is empty; with a
non-empty stdout or an empty stderr it passes the streams through. -/
theorem exec_stderr_fatal_iff (env : Env) (c out err : String)
    (h : env.run c = .ok (out, err)) :
    (err ≠ "" → out = "" → execPhase env c =
      .error (.withCause "Failed trying to move unpacked file(s)"
        (.simple err)))
    ∧ (out ≠ "" ∨ err = "" → execPhase env c = .ok (out, err)) := by
  unfold execPhase
  rw [h]
  constructor
  · intro h1 h2
    subst h2
    simp [h1]
  · intro h1
    have hb : (err != "" && out == "") = false := by
      rcases h1 with h1 | h1 <;> simp [h1]
    simp [hb]

def c8Env : Env :=
  { run := fun c => if c = "boomcmd" then .ok ("", "boom") else .ok ("listing", ""),
    toolVersion := fun _ _ => .ok "",
    statKind := fun _ => none,
    probe := fun _ => none,
    renameFs := fun _ _ => none }

/-- Witness for C8: a fatal run (stderr `boom`, empty stdout) and a passing
run (non-empty stdout). -/
theorem exec_stderr_fatal_iff_witness :
    execPhase c8Env "boomcmd" =
      .error (.withCause "Failed trying to move unpacked file(s)"
        (.simple "boom"))
    ∧ execPhase c8Env "okcmd" = .ok ("listing", "") :=
  ⟨(exec_stderr_fatal_iff c8Env "boomcmd" "" "boom" (by decide)).1
      (by decide) rfl,
   (exec_stderr_fatal_iff c8Env "okcmd" "listing" "" (by decide)).2
      (Or.inl (by decide))⟩

def stTools : UnpackerState :=
  { st0 with tar := .bound "/usr/bin/tar" "1.30",
             gzip := .bound "/usr/bin/gzip" "1.30",
             unzip := .bound "/usr/bin/unzip" "1.30" }

def c9Env : Env :=
  { run := fun c =>
      if c = "which tar" then .ok ("/usr/bin/tar", "")
      else if c = "which gzip" then .ok ("/usr/bin/gzip", "")
      else if c = "which unzip" then .ok ("/usr/bin/unzip", "")
      else .error ("unexpected command: " ++ c),
    toolVersion := fun _ _ => .ok "1.30",
    statKind := fun p => if p = "/tmp/w.tar" then some .file else none,
    probe := fun _ => some TAR,
    renameFs := fun _ _ => none }

def c9State : UnpackerState :=
  okStateD st0 (setPath c9Env st0 (some "/tmp/w.tar"))

/-- C9: `setPath` rejects an absent or empty path with the
`Missing required path argument.` error; with resolved tool bindings, a
path that does not stat as a regular file (nonexistent included) is
rejected with the `Not a valid file path` error; and any successful call
stores the resolved path, which is absolute whenever the working directory
is. -/
theorem setPath_error_contract :
    (∀ env st,
      setPath env st none = .error (.simple "Missing required path argument.")
      ∧ setPath env st (some "")
          = .error (.simple "Missing required path argument."))
    ∧ (∀ env st p, p ≠ "" → st.tar ≠ ToolRef.jsNull →
        st.gzip ≠ ToolRef.jsNull → st.unzip ≠ ToolRef.jsNull →
        env.statKind p ≠ some StatKind.file →
        setPath env st (some p)
          = .error (.simple ("Not a valid file path: " ++ p)))
    ∧ (∀ env st p st', setPath env st (some p) = .ok st' →
        st'.path = some (resolvePath st.cwd p)
        ∧ (isAbsolute st.cwd = true → isAbsolute (jsRender st'.path) = true)) := by
  refine ⟨fun env st => ⟨rfl, rfl⟩,
    fun env st p hp h1 h2 h3 hstat =>
      setPath_stat_not_file env st p hp h1 h2 h3 hstat,
    ?_⟩
  intro env st p st' h
  obtain ⟨-, hpath⟩ := setPath_ok_shape env st p st' h
  refine ⟨hpath, fun hcwd => ?_⟩
  rw [hpath]
  show isAbsolute (resolvePath st.cwd p) = true
  unfold resolvePath
  split
  · next habs => exact habs
  · exact isAbsolute_append (st.cwd ++ "/") p (isAbsolute_append st.cwd "/" hcwd)

/-- Witness for C9: missing argument, nonexistent file, and a successful
call storing the (already absolute) resolved path. -/
theorem setPath_error_contract_witness :
    setPath envAllTools st0 none
      = .error (.simple "Missing required path argument.")
    ∧ setPath envAllTools stTools (some "/tmp/missing.tar.gz")
        = .error (.simple ("Not a valid file path: " ++ "/tmp/missing.tar.gz"))
    ∧ c9State.path = some (resolvePath st0.cwd "/tmp/w.tar") :=
  ⟨(setPath_error_contract.1 envAllTools st0).1,
   setPath_error_contract.2.1 envAllTools stTools "/tmp/missing.tar.gz"
     (by decide) (by decide) (by decide) (by decide) (by decide),
   (setPath_error_contract.2.2 c9Env st0 "/tmp/w.tar" c9State (by decide)).1⟩

/-- C10: after any successful `setPath`, `getMimetype()` is one of the
five literals `application/x-tar`, `application/zip`, `application/gzip`,
`inode/directory`, `application/octet-stream`; in particular the switch
records `application/x-rar` probe output as `application/octet-stream`. -/
theorem getMimetype_five_literals :
    (∀ env st p st', setPath env st (some p) = .ok st' →
      getMimetype st' = some TAR ∨ getMimetype st' = some ZIP
      ∨ getMimetype st' = some GZIP ∨ getMimetype st' = some DIRECTORY
      ∨ getMimetype st' = some OCTET)
    ∧ setMimetypeSwitch "application/x-rar" = OCTET := by
  constructor
  · intro env st p st' h
    obtain ⟨⟨s, hs⟩, -⟩ := setPath_ok_shape env st p st' h
    rcases mimeSwitch_mem s with h1 | h1 | h1 | h1 | h1 <;> rw [hs, h1] <;> simp
  · rfl

def c10Env : Env :=
  { run := fun c =>
      if c = "which tar" then .ok ("/usr/bin/tar", "")
      else if c = "which gzip" then .ok ("/usr/bin/gzip", "")
      else if c = "which unzip" then .ok ("/usr/bin/unzip", "")
      else .error ("unexpected command: " ++ c),
    toolVersion := fun _ _ => .ok "1.30",
    statKind := fun p => if p = "/tmp/m.rar" then some .file else none,
    probe := fun _ => some "application/x-rar",
    renameFs := fun _ _ => none }

def c10State : UnpackerState :=
  okStateD st0 (setPath c10Env st0 (some "/tmp/m.rar"))

/-- Witness for C10 on a file whose probe reports `application/x-rar`. -/
theorem getMimetype_five_literals_witness :
    getMimetype c10State = some TAR ∨ getMimetype c10State = some ZIP
    ∨ getMimetype c10State = some GZIP ∨ getMimetype c10State = some DIRECTORY
    ∨ getMimetype c10State = some OCTET :=
  getMimetype_five_literals.1 c10Env st0 "/tmp/m.rar" c10State (by decide)

end Unpacker
